import Mathlib

/-!
# Verification of the debt-consolidation engine (`src/st_debt.py`)

Shallow embedding of the numeric core of the repository.  Python floats are
modelled as real numbers where the code uses fractional powers (the fixed-loan
calculator) and as rational numbers where the code only adds, multiplies,
compares and rounds (the revolving-debt simulation, the repayment timeline,
the weighted average).  A Python expression that raises `ZeroDivisionError`
is modelled as `none`; loops are modelled with explicit fuel.
-/

namespace DebtCon

/-! ## Fixed-loan calculator (lines 7-28), over ℝ -/

/-- The periodic monthly rate computed inside `calculate_monthly_payment`
(lines 18-19): `effective_rate = (1 + annual_rate/2)^2 - 1`, then
`periodic_rate = (1 + effective_rate)^(1/12) - 1`. -/
noncomputable def periodicRate (annual_rate : ℝ) : ℝ :=
  (1 + ((1 + annual_rate / 2) ^ 2 - 1)) ^ ((1 : ℝ) / 12) - 1

/-- `calculate_monthly_payment(principal, annual_rate, months)` (lines 15-21).
Returns the pair `(monthly_payment, periodic_rate)`.  The two divisions that
can raise `ZeroDivisionError` in Python (`principal / months` when
`annual_rate == 0`, and the annuity denominator `1 - (1+p)^(-months)`)
are modelled by returning `none` when the divisor is zero. -/
noncomputable def calculate_monthly_payment (principal annual_rate : ℝ) (months : ℤ) :
    Option (ℝ × ℝ) :=
  if annual_rate = 0 then
    if (months : ℝ) = 0 then none else some (principal / (months : ℝ), 0)
  else
    let p := periodicRate annual_rate
    let denom := 1 - (1 + p) ^ (-months)
    if denom = 0 then none else some (principal * (p / denom), p)

/-- `calculate_remaining_balance(principal, annual_rate, months_elapsed, total_term)`
(lines 7-13).  In the zero-rate branch the code divides by `total_term`
(`none` when it is zero); otherwise it uses the closed-form amortization
balance built from `calculate_monthly_payment`'s output. -/
noncomputable def calculate_remaining_balance (principal annual_rate : ℝ)
    (months_elapsed total_term : ℕ) : Option ℝ :=
  if annual_rate = 0 then
    if (total_term : ℝ) = 0 then none
    else some (principal * (1 - (months_elapsed : ℝ) / (total_term : ℝ)))
  else
    (calculate_monthly_payment principal annual_rate (total_term : ℤ)).map fun mp =>
      principal * (1 + mp.2) ^ months_elapsed -
        (mp.1 / mp.2) * ((1 + mp.2) ^ months_elapsed - 1)

/-- `calculate_total_interest(principal, annual_rate, months)` (lines 23-28):
`0` when `months == 0`, otherwise `monthly_payment * months - principal`. -/
noncomputable def calculate_total_interest (principal annual_rate : ℝ) (months : ℕ) :
    Option ℝ :=
  if months = 0 then some 0
  else (calculate_monthly_payment principal annual_rate (months : ℤ)).map fun mp =>
    mp.1 * (months : ℝ) - principal

/-! ## Rounding and truncation helpers, over ℚ -/

/-- Python `round(x, 2)`: round to two decimal places, ties to even. -/
def pyRound2 (x : ℚ) : ℚ :=
  let y := x * 100
  let f : ℤ := ⌊y⌋
  let n : ℤ :=
    if y - (f : ℚ) < 1 / 2 then f
    else if (1 : ℚ) / 2 < y - (f : ℚ) then f + 1
    else if f % 2 = 0 then f else f + 1
  (n : ℚ) / 100

/-- Python `int(x)`: truncation toward zero. -/
def truncToInt (x : ℚ) : ℤ := if 0 ≤ x then ⌊x⌋ else -⌊-x⌋

/-! ## Revolving-debt daily-accrual simulation (lines 36-59), over ℚ -/

/-- The inner `for day in range(days_in_month)` loop of
`calculate_revolving_borrowing_cost_daily` (lines 44-51).  State is
`(remaining_balance, monthly_interest)`; each day accrues
`remaining_balance * daily_rate` onto both, and as soon as
`monthly_payment >= remaining_balance` the balance is zeroed and the loop
breaks (the returned flag records that the month's interest was already
added to the running total at the break, line 49). -/
def innerDays (monthly_payment daily_rate : ℚ) : ℕ → ℚ → ℚ → ℚ × ℚ × Bool
  | 0, rb, mi => (rb, mi, false)
  | d + 1, rb, mi =>
    let di := rb * daily_rate
    let mi' := mi + di
    let rb' := rb + di
    if monthly_payment ≥ rb' then (0, mi', true)
    else innerDays monthly_payment daily_rate d rb' mi'

/-- The outer `while remaining_balance > 0` loop of
`calculate_revolving_borrowing_cost_daily` (lines 42-59), with explicit fuel
counting the months simulated; `none` means the loop was still running when
the fuel ran out.  The source loop has no iteration cap of its own. -/
def outerMonths (monthly_payment daily_rate : ℚ) : ℕ → ℚ → ℚ → Option ℚ
  | 0, rb, total => if 0 < rb then none else some (pyRound2 total)
  | fuel + 1, rb, total =>
    if 0 < rb then
      let r := innerDays monthly_payment daily_rate 30 rb 0
      let total' := if r.2.2 then total + r.2.1 else total
      if r.1 = 0 then some (pyRound2 total')
      else
        let total'' := total + r.2.1
        let pay := min monthly_payment r.1
        let rb' := r.1 - pay
        let rb'' := if rb' < 0 then 0 else rb'
        outerMonths monthly_payment daily_rate fuel rb'' total''
    else some (pyRound2 total)

/-- `calculate_revolving_borrowing_cost_daily(balance, annual_rate, monthly_payment)`
(lines 36-59) with `daily_rate = annual_rate / 365` and 30 days per month. -/
def calculate_revolving_borrowing_cost_daily
    (balance annual_rate monthly_payment : ℚ) (fuel : ℕ) : Option ℚ :=
  outerMonths monthly_payment (annual_rate / 365) fuel balance 0

/-! ## Repayment timeline generator (lines 73-85), over ℚ -/

/-- The `for month in range(1, max_months + 1)` loop of
`generate_repayment_timeline` (lines 77-84): break when the balance is
at most 0; otherwise accrue `remaining_balance * monthly_rate`, subtract
the payment, clamp at 0 and append `(month, remaining_balance)`. -/
def timelineAux (annual_rate monthly_payment : ℚ) : ℕ → ℕ → ℚ → List (ℕ × ℚ)
  | 0, _, _ => []
  | fuel + 1, month, rb =>
    if rb ≤ 0 then []
    else
      let interest := rb * (annual_rate / 12)
      let rb' := rb + interest - monthly_payment
      let rb'' := if rb' < 0 then 0 else rb'
      (month, rb'') :: timelineAux annual_rate monthly_payment fuel (month + 1) rb''

/-- `generate_repayment_timeline(balance, annual_rate, monthly_payment, max_months)`
(lines 73-85); the source's default horizon is 360 months. -/
def generate_repayment_timeline (balance annual_rate monthly_payment : ℚ)
    (max_months : ℕ) : List (ℕ × ℚ) :=
  timelineAux annual_rate monthly_payment max_months 1 balance

/-- The revolving remaining-term estimate (line 136):
`int(balance / monthly_payment) if monthly_payment > 0 else 0`. -/
def revolving_remaining_term (balance monthly_payment : ℚ) : ℤ :=
  if 0 < monthly_payment then truncToInt (balance / monthly_payment) else 0

/-! ## Weighted-average interest rate (lines 61-71), over ℚ -/

/-- `calculate_weighted_average_interest(debts, mortgage_balance, mortgage_rate)`
(lines 61-71).  Each debt is a `(balance, rate)` pair; the accumulator starts
from the mortgage figures, and a zero total balance yields `0.0` instead of a
division error. -/
def calculate_weighted_average_interest (debts : List (ℚ × ℚ))
    (mortgage_balance mortgage_rate : ℚ) : ℚ :=
  let acc := debts.foldl (fun acc d => (acc.1 + d.1, acc.2 + d.1 * d.2))
    (mortgage_balance, mortgage_balance * mortgage_rate)
  if acc.1 = 0 then 0 else pyRound2 (acc.2 / acc.1 * 100)

/-! ## The portfolio dictionaries built by the app (lines 94-172) -/

/-- The dictionary appended to `debts` for one entry (lines 116-125 for a
fixed debt, lines 142-151 for a revolving one).  A fixed entry has the keys
`remaining_term`, `monthly_payment`, `remaining_interest`, `remaining_balance`;
a revolving entry has `monthly_payment`, `total_interest`, `remaining_balance`,
`remaining_term` (there is no `remaining_interest` key on a revolving entry
and no `total_interest` key on a fixed one). -/
inductive DebtEntry where
  | fixed (name : String) (balance rate : ℝ) (remaining_term : ℕ)
      (monthly_payment remaining_interest remaining_balance : ℝ)
  | revolving (name : String) (balance rate monthly_payment total_interest
      remaining_balance : ℝ) (remaining_term : ℤ)

def DebtEntry.name : DebtEntry → String
  | .fixed n _ _ _ _ _ _ => n
  | .revolving n _ _ _ _ _ _ => n

def DebtEntry.monthly_payment : DebtEntry → ℝ
  | .fixed _ _ _ _ mp _ _ => mp
  | .revolving _ _ _ mp _ _ _ => mp

def DebtEntry.remaining_balance : DebtEntry → ℝ
  | .fixed _ _ _ _ _ _ rb => rb
  | .revolving _ _ _ _ _ rb _ => rb

def DebtEntry.remaining_term : DebtEntry → ℤ
  | .fixed _ _ _ rt _ _ _ => (rt : ℤ)
  | .revolving _ _ _ _ _ _ rt => rt

/-- Python `debt.get('total_interest', 0)` (lines 201 and 210): a fixed entry
has no `total_interest` key, so the default `0` is returned for it. -/
def DebtEntry.getTotalInterestD : DebtEntry → ℝ
  | .fixed _ _ _ _ _ _ _ => 0
  | .revolving _ _ _ _ ti _ _ => ti

/-- Modelled from the spec: the per-debt interest figure named by the
aggregation sentence of the spec, "remaining interest for fixed, total
interest for revolving".  Used to compare the spec's description of the
current-scenario totals against what line 201 actually computes. -/
def DebtEntry.interestFigure : DebtEntry → ℝ
  | .fixed _ _ _ _ _ ri _ => ri
  | .revolving _ _ _ _ ti _ _ => ti

/-- The mortgage figures computed in lines 160-168. -/
structure MortgageData where
  payment : ℝ
  remainingBalance : ℝ
  remainingInterest : ℝ
  remainingTerm : ℕ
  amortization : ℕ

/-- Lines 101-125: the pipeline that turns one fixed debt's raw inputs into
its dictionary entry.  `months_elapsed` is the whole-month difference the app
derives from the start date, already floored at 0; `remaining_term` is
`max(0, term_months - months_elapsed)` (natural subtraction). -/
noncomputable def mkFixedEntry (name : String) (balance rate : ℝ)
    (term_months months_elapsed : ℕ) : Option DebtEntry :=
  let remaining_term := term_months - months_elapsed
  (calculate_remaining_balance balance rate months_elapsed term_months).bind fun rb =>
    (calculate_monthly_payment balance rate (term_months : ℤ)).bind fun mp =>
      (calculate_total_interest rb rate remaining_term).map fun ri =>
        DebtEntry.fixed name balance rate remaining_term mp.1 ri rb

/-- Lines 160-168: the pipeline computing the mortgage figures from its raw
inputs. -/
noncomputable def mkMortgage (balance rate : ℝ) (amortization months_elapsed : ℕ) :
    Option MortgageData :=
  let remaining_term := amortization - months_elapsed
  (calculate_remaining_balance balance rate months_elapsed amortization).bind fun rb =>
    (calculate_monthly_payment balance rate (amortization : ℤ)).bind fun mp =>
      (calculate_total_interest rb rate remaining_term).map fun ri =>
        { payment := mp.1, remainingBalance := rb, remainingInterest := ri,
          remainingTerm := remaining_term, amortization := amortization }

/-! ## Scenario comparison (lines 186-212) -/

/-- Python `max` over a list of values (raises on an empty list; the `[]`
case here is a junk value, and every theorem about it assumes the portfolio
is nonempty, as the claims do). -/
def pyMax : List ℤ → ℤ
  | [] => 0
  | x :: xs => xs.foldl max x

/-- Line 201: `remaining_mortgage_interest + sum(debt.get('total_interest', 0)
for debt in debts)`; Python `sum` is a left fold from 0. -/
def current_interest (m : MortgageData) (debts : List DebtEntry) : ℝ :=
  m.remainingInterest + debts.foldl (fun acc d => acc + d.getTotalInterestD) 0

/-- Line 202: `mortgage_payment + sum(debt['monthly_payment'] for debt in debts)`. -/
def current_payment (m : MortgageData) (debts : List DebtEntry) : ℝ :=
  m.payment + debts.foldl (fun acc d => acc + d.monthly_payment) 0

/-- Line 203: `max(mortgage_amortization, max(debt.get('remaining_term', 0)
for debt in debts))` — note the first argument is the full amortization. -/
def current_horizon (m : MortgageData) (debts : List DebtEntry) : ℤ :=
  max (m.amortization : ℤ) (pyMax (debts.map DebtEntry.remaining_term))

/-- Modelled from the spec: the current-scenario total interest as the spec
words it, "sum of each debt's interest figure (remaining interest for fixed,
total interest for revolving) plus mortgage remaining interest". -/
def spec_current_interest (m : MortgageData) (debts : List DebtEntry) : ℝ :=
  m.remainingInterest + (debts.map DebtEntry.interestFigure).sum

/-- Modelled from the spec: the payoff horizon as the spec words it, "max of
all individual remaining terms and the mortgage's remaining term". -/
def spec_current_horizon (m : MortgageData) (debts : List DebtEntry) : ℤ :=
  max (m.remainingTerm : ℤ) (pyMax (debts.map DebtEntry.remaining_term))

/-- Line 188: the consolidated principal
`remaining_balance + sum(debt.get('remaining_balance', debt['balance'])
for debt in debts if debt['name'] in selected_debts) + fees`
(with the mortgage block executed, `remaining_balance` holds the mortgage's
remaining balance; every entry carries a `remaining_balance` key, so the
`debt['balance']` default is never taken). -/
noncomputable def new_balance (m : MortgageData) (debts : List DebtEntry)
    (selected : List String) (fees : ℝ) : ℝ :=
  m.remainingBalance +
    ((debts.filter fun d => d.name ∈ selected).map DebtEntry.remaining_balance).sum
    + fees

/-- The two scenario columns of `comparison_data` (lines 193-212). -/
structure Comparison where
  currentInterest : ℝ
  currentPayment : ℝ
  currentHorizon : ℤ
  consolidatedInterest : ℝ
  consolidatedPayment : ℝ
  consolidatedHorizon : ℤ
  netSavings : ℝ

/-- Lines 188-212: the consolidation block.  The consolidated payment and
total interest come from the fixed-loan calculator applied to `new_balance`
with the plan's rate and term (lines 189-190); the net-savings cell (line
210) recomputes the line-201 current-interest expression and subtracts the
consolidated total interest. -/
noncomputable def comparison_data (m : MortgageData) (debts : List DebtEntry)
    (selected : List String) (fees new_rate : ℝ) (new_amortization : ℕ) :
    Option Comparison :=
  let nb := new_balance m debts selected fees
  (calculate_monthly_payment nb new_rate (new_amortization : ℤ)).bind fun mp =>
    (calculate_total_interest nb new_rate new_amortization).map fun ti =>
      { currentInterest := current_interest m debts
        currentPayment := current_payment m debts
        currentHorizon := current_horizon m debts
        consolidatedInterest := ti
        consolidatedPayment := mp.1
        consolidatedHorizon := (new_amortization : ℤ)
        netSavings := current_interest m debts - ti }

/-! ## Helper lemmas for the fixed-loan calculator -/

lemma onePlusPeriodic (r : ℝ) :
    1 + periodicRate r = ((1 + r / 2) ^ 2) ^ ((1 : ℝ) / 12) := by
  have h : (1 : ℝ) + ((1 + r / 2) ^ 2 - 1) = (1 + r / 2) ^ 2 := by ring
  rw [periodicRate, h]; ring

lemma one_lt_onePlusPeriodic {r : ℝ} (hr : 0 < r) : 1 < 1 + periodicRate r := by
  rw [onePlusPeriodic]
  have h2 : (1 : ℝ) < (1 + r / 2) ^ 2 := by nlinarith
  have h0 : (0 : ℝ) < (1 + r / 2) ^ 2 := by nlinarith
  exact (Real.one_lt_rpow_iff_of_pos h0).mpr (Or.inl ⟨h2, by norm_num⟩)

lemma periodicRate_pos {r : ℝ} (hr : 0 < r) : 0 < periodicRate r := by
  have := one_lt_onePlusPeriodic hr; linarith

lemma zpow_neg_lt_one {q : ℝ} (hq : 1 < q) {m : ℤ} (hm : 1 ≤ m) : q ^ (-m) < 1 := by
  rw [zpow_neg]
  have h1 : 1 < q ^ m := one_lt_zpow₀ hq (by omega)
  exact inv_lt_one_of_one_lt₀ h1

lemma annuity_denom_pos {r : ℝ} (hr : 0 < r) {m : ℤ} (hm : 1 ≤ m) :
    0 < 1 - (1 + periodicRate r) ^ (-m) := by
  have := zpow_neg_lt_one (one_lt_onePlusPeriodic hr) hm
  linarith

lemma calcMP_zero_rate (P : ℝ) (m : ℤ) (hm : (m : ℝ) ≠ 0) :
    calculate_monthly_payment P 0 m = some (P / (m : ℝ), 0) := by
  rw [calculate_monthly_payment, if_pos rfl, if_neg hm]

lemma calcMP_pos_rate (P : ℝ) {r : ℝ} (hr : 0 < r) {m : ℤ} (hm : 1 ≤ m) :
    calculate_monthly_payment P r m =
      some (P * (periodicRate r / (1 - (1 + periodicRate r) ^ (-m))), periodicRate r) := by
  have hd := annuity_denom_pos hr hm
  simp only [calculate_monthly_payment, if_neg hr.ne']
  rw [if_neg hd.ne']

/-! ## Claim theorems -/

/-- Claim C1: for principal `P`, annual rate `r > 0` and term `months ≥ 1`,
`calculate_monthly_payment` returns the payment
`P * p / (1 - (1+p)^(-months))` together with `p` itself, where
`p = (1 + ((1 + r/2)^2 - 1))^(1/12) - 1` (that expression is the definition
of `periodicRate`); and when `r = 0` it returns `(P / months, 0)`. -/
theorem C1_monthly_payment (P r : ℝ) (m : ℤ) (hm : 1 ≤ m) :
    (0 < r → calculate_monthly_payment P r m =
      some (P * periodicRate r / (1 - (1 + periodicRate r) ^ (-m)), periodicRate r)) ∧
    calculate_monthly_payment P 0 m = some (P / (m : ℝ), 0) := by
  constructor
  · intro hr
    rw [calcMP_pos_rate P hr hm, mul_div_assoc]
  · exact calcMP_zero_rate P m (by exact_mod_cast (by omega : m ≠ 0))

/-- Witness for C1 at the spec's scenario-2 figures: principal 10000,
rate 6 percent, 60 months; and principal 10000, rate 0, 60 months. -/
theorem C1_monthly_payment_witness :
    (1 : ℤ) ≤ 60 ∧ (0 : ℝ) < 6 / 100 ∧
    calculate_monthly_payment 10000 (6 / 100) 60 =
      some (10000 * periodicRate (6 / 100) /
        (1 - (1 + periodicRate (6 / 100)) ^ (-(60 : ℤ))), periodicRate (6 / 100)) ∧
    calculate_monthly_payment 10000 0 60 = some (10000 / ((60 : ℤ) : ℝ), 0) := by
  refine ⟨by norm_num, by norm_num, ?_, ?_⟩
  · exact (C1_monthly_payment 10000 (6 / 100) 60 (by norm_num)).1 (by norm_num)
  · exact (C1_monthly_payment 10000 0 60 (by norm_num)).2

/-- Claim C6, counterexample: at `months = -5` (which is `≤ 0`) and rate 0 the
function does not fail — it returns the numeric result `(-20, 0)`. -/
theorem C6_counterexample : calculate_monthly_payment 100 0 (-5) = some (-20, 0) := by
  rw [calcMP_zero_rate 100 (-5) (by norm_num)]
  norm_num

/-- Claim C6 (amended): `calculate_monthly_payment` fails (division by zero)
exactly at `months = 0`, for every principal and rate; for `months < 0` and
any rate `≥ 0` it returns a numeric result instead of failing. -/
theorem C6_invalid_term :
    (∀ P r : ℝ, calculate_monthly_payment P r 0 = none) ∧
    (∀ (P r : ℝ) (m : ℤ), 0 ≤ r → m < 0 →
      ∃ x, calculate_monthly_payment P r m = some x) := by
  constructor
  · intro P r
    rw [calculate_monthly_payment]
    by_cases h : r = 0 <;> simp [h]
  · intro P r m hr hm
    rcases hr.eq_or_lt with h0 | hpos
    · subst h0
      exact ⟨_, calcMP_zero_rate P m (by exact_mod_cast (by omega : m ≠ 0))⟩
    · have hq := one_lt_onePlusPeriodic hpos
      have h1 : 1 < (1 + periodicRate r) ^ (-m) := one_lt_zpow₀ hq (by omega)
      have hd : (1 - (1 + periodicRate r) ^ (-m)) ≠ 0 := by
        intro h; rw [sub_eq_zero] at h; exact absurd h.symm (ne_of_gt h1)
      exact ⟨_, by simp only [calculate_monthly_payment, if_neg hpos.ne']; rw [if_neg hd]⟩

lemma one_sub_zpow_neg_le {p : ℝ} (hp : 0 < p) (n : ℕ) :
    1 - (1 + p) ^ (-(n : ℤ)) ≤ (n : ℝ) * p := by
  induction n with
  | zero => simp
  | succ k ih =>
    have hq0 : (0 : ℝ) < 1 + p := by linarith
    have hstep : (1 + p) ^ (-((k : ℤ) + 1)) * (1 + p) = (1 + p) ^ (-(k : ℤ)) := by
      rw [← zpow_add_one₀ hq0.ne']
      congr 1
      ring
    have hle1 : (1 + p) ^ (-((k : ℤ) + 1)) ≤ 1 :=
      le_of_lt (zpow_neg_lt_one (by linarith) (by omega))
    have hAp : (1 + p) ^ (-((k : ℤ) + 1)) * p ≤ 1 * p :=
      mul_le_mul_of_nonneg_right hle1 hp.le
    have hcast : (-((k : ℕ) + 1 : ℕ) : ℤ) = -((k : ℤ) + 1) := by push_cast; ring
    rw [hcast]
    push_cast
    nlinarith [ih, hAp, hstep]

/-- Claim C7: for principal `≥ 0` and rate `≥ 0`, `calculate_total_interest`
returns 0 at `months = 0`, returns `monthly_payment * months - principal` for
`months > 0`, and that value is never negative. -/
theorem C7_total_interest (P r : ℝ) (hP : 0 ≤ P) (hr : 0 ≤ r) :
    calculate_total_interest P r 0 = some 0 ∧
    ∀ m : ℕ, 0 < m →
      ∃ pay p, calculate_monthly_payment P r (m : ℤ) = some (pay, p) ∧
        calculate_total_interest P r m = some (pay * (m : ℝ) - P) ∧
        0 ≤ pay * (m : ℝ) - P := by
  constructor
  · rw [calculate_total_interest]; simp
  · intro m hm
    have hm0 : (m : ℝ) ≠ 0 := by exact_mod_cast hm.ne'
    rcases hr.eq_or_lt with h0 | hpos
    · subst h0
      refine ⟨P / (m : ℝ), 0, calcMP_zero_rate P m hm0, ?_, ?_⟩
      · rw [calculate_total_interest, if_neg hm.ne', calcMP_zero_rate P m hm0]
        rfl
      · have : P / (m : ℝ) * (m : ℝ) - P = 0 := by field_simp
        rw [this]
    · have hm1 : (1 : ℤ) ≤ (m : ℤ) := by omega
      have hD := annuity_denom_pos hpos hm1
      have hp := periodicRate_pos hpos
      set p := periodicRate r with hpdef
      set D := 1 - (1 + p) ^ (-(m : ℤ)) with hDdef
      refine ⟨P * (p / D), p, calcMP_pos_rate P hpos hm1, ?_, ?_⟩
      · rw [calculate_total_interest, if_neg hm.ne', calcMP_pos_rate P hpos hm1]
        rfl
      · have hkey : D ≤ (m : ℝ) * p := one_sub_zpow_neg_le hp m
        have heq : P * (p / D) * (m : ℝ) - P = P * ((p * (m : ℝ) - D) / D) := by
          field_simp
          ring
        rw [heq]
        exact mul_nonneg hP (div_nonneg (by linarith) hD.le)

/-- Witness for C7 at principal 10000 and rate 6 percent. -/
theorem C7_total_interest_witness :
    (0 : ℝ) ≤ 10000 ∧ (0 : ℝ) ≤ 6 / 100 ∧
    (calculate_total_interest 10000 (6 / 100) 0 = some 0 ∧
      ∀ m : ℕ, 0 < m →
        ∃ pay p, calculate_monthly_payment 10000 (6 / 100) (m : ℤ) = some (pay, p) ∧
          calculate_total_interest 10000 (6 / 100) m = some (pay * (m : ℝ) - 10000) ∧
          0 ≤ pay * (m : ℝ) - 10000) :=
  ⟨by norm_num, by norm_num, C7_total_interest 10000 (6 / 100) (by norm_num) (by norm_num)⟩

/-- Claim C5, counterexample: past maturity the reported remaining balance is
not clamped at 0 — at principal 1200, rate 0, 24 elapsed months of a 12-month
term, the caller receives -1200, which is negative. -/
theorem C5_counterexample :
    calculate_remaining_balance 1200 0 24 12 = some (-1200) ∧ (-1200 : ℝ) < 0 := by
  refine ⟨?_, by norm_num⟩
  rw [calculate_remaining_balance, if_pos rfl,
    if_neg (by norm_num : ((12 : ℕ) : ℝ) ≠ 0)]
  norm_num

/-- Claim C5 (amended): for principal `≥ 0`, rate `≥ 0` and term `≥ 1`, the
reported remaining balance equals the principal at zero elapsed months, is
monotonically non-increasing in the elapsed months, stays between 0 and the
principal for every elapsed month up to the term, and is exactly 0 at term
end.  (Past the term it keeps decreasing and is not clamped at 0, as the
counterexample shows.) -/
theorem C5_remaining_balance (P r : ℝ) (t : ℕ) (hP : 0 ≤ P) (hr : 0 ≤ r)
    (ht : 1 ≤ t) :
    ∃ f : ℕ → ℝ,
      (∀ m, calculate_remaining_balance P r m t = some (f m)) ∧
      f 0 = P ∧
      (∀ m, f (m + 1) ≤ f m) ∧
      (∀ m, m ≤ t → 0 ≤ f m ∧ f m ≤ P) ∧
      f t = 0 := by
  have ht0 : (0 : ℝ) < (t : ℝ) := by exact_mod_cast ht
  rcases hr.eq_or_lt with h0 | hpos
  · subst h0
    refine ⟨fun m => P * (1 - (m : ℝ) / (t : ℝ)), fun m => ?_, by simp, ?_, ?_, ?_⟩
    · rw [calculate_remaining_balance, if_pos rfl, if_neg ht0.ne']
    · intro m
      push_cast
      have heq : P * (1 - ((m : ℝ) + 1) / (t : ℝ)) =
          P * (1 - (m : ℝ) / (t : ℝ)) - P / (t : ℝ) := by
        field_simp
        ring
      rw [heq]
      linarith [div_nonneg hP ht0.le]
    · intro m hmt
      have h1 : (m : ℝ) / (t : ℝ) ≤ 1 := by
        rw [div_le_one ht0]; exact_mod_cast hmt
      have h2 : (0 : ℝ) ≤ (m : ℝ) / (t : ℝ) := by positivity
      constructor
      · exact mul_nonneg hP (by linarith)
      · nlinarith [mul_nonneg hP h2]
    · beta_reduce
      rw [div_self ht0.ne']; ring
  · have ht1 : (1 : ℤ) ≤ (t : ℤ) := by omega
    have hq1 : 1 < 1 + periodicRate r := one_lt_onePlusPeriodic hpos
    have hq0 : (0 : ℝ) < 1 + periodicRate r := by linarith
    have hp := periodicRate_pos hpos
    have hD := annuity_denom_pos hpos ht1
    have hPD : 0 ≤ P / (1 - (1 + periodicRate r) ^ (-(t : ℤ))) := div_nonneg hP hD.le
    refine ⟨fun m => (P / (1 - (1 + periodicRate r) ^ (-(t : ℤ)))) *
        (1 - (1 + periodicRate r) ^ ((m : ℤ) - (t : ℤ))),
      fun m => ?_, ?_, ?_, ?_, ?_⟩
    · have hQ : (1 + periodicRate r) ^ (t : ℕ) ≠ 0 := pow_ne_zero _ hq0.ne'
      have hQ1 : (1 + periodicRate r) ^ (t : ℕ) - 1 ≠ 0 := by
        have : (1 : ℝ) < (1 + periodicRate r) ^ (t : ℕ) :=
          one_lt_pow₀ hq1 (by omega)
        linarith
      simp only [calculate_remaining_balance, if_neg hpos.ne',
        calcMP_pos_rate P hpos ht1, Option.map_some', Option.some.injEq]
      rw [zpow_sub₀ hq0.ne', zpow_neg, zpow_natCast]
      field_simp
      ring
    · simp only [Nat.cast_zero, zero_sub]
      exact div_mul_cancel₀ P hD.ne'
    · intro m
      beta_reduce
      have hcast : ((m + 1 : ℕ) : ℤ) = (m : ℤ) + 1 := by push_cast; ring
      rw [hcast]
      have hstep : (1 + periodicRate r) ^ ((m : ℤ) - (t : ℤ)) ≤
          (1 + periodicRate r) ^ (((m : ℤ) + 1) - (t : ℤ)) :=
        zpow_le_zpow_right₀ hq1.le (by omega)
      exact mul_le_mul_of_nonneg_left (by linarith) hPD
    · intro m hmt
      have hupper : (1 + periodicRate r) ^ ((m : ℤ) - (t : ℤ)) ≤ 1 := by
        have h := zpow_le_zpow_right₀ hq1.le (show (m : ℤ) - (t : ℤ) ≤ 0 by omega)
        simpa using h
      have hlower : (1 + periodicRate r) ^ (-(t : ℤ)) ≤
          (1 + periodicRate r) ^ ((m : ℤ) - (t : ℤ)) :=
        zpow_le_zpow_right₀ hq1.le (by omega)
      constructor
      · exact mul_nonneg hPD (by linarith)
      · calc (P / (1 - (1 + periodicRate r) ^ (-(t : ℤ)))) *
              (1 - (1 + periodicRate r) ^ ((m : ℤ) - (t : ℤ))) ≤
            (P / (1 - (1 + periodicRate r) ^ (-(t : ℤ)))) *
              (1 - (1 + periodicRate r) ^ (-(t : ℤ))) :=
              mul_le_mul_of_nonneg_left (by linarith) hPD
          _ = P := div_mul_cancel₀ P hD.ne'
    · beta_reduce
      have hz : ((t : ℤ) - (t : ℤ)) = 0 := by ring
      rw [hz, zpow_zero]
      ring

/-- Witness for the C5 theorem at principal 12000, rate 0, term 12 months. -/
theorem C5_remaining_balance_witness :
    (0 : ℝ) ≤ 12000 ∧ (0 : ℝ) ≤ 0 ∧ 1 ≤ 12 ∧
    ∃ f : ℕ → ℝ,
      (∀ m, calculate_remaining_balance 12000 0 m 12 = some (f m)) ∧
      f 0 = 12000 ∧
      (∀ m, f (m + 1) ≤ f m) ∧
      (∀ m, m ≤ 12 → 0 ≤ f m ∧ f m ≤ 12000) ∧
      f 12 = 0 :=
  ⟨by norm_num, le_refl 0, by norm_num,
    C5_remaining_balance 12000 0 12 (by norm_num) (le_refl 0) (by norm_num)⟩

/-- Witness for the C6 theorem at principal 100, rate 0, months -5. -/
theorem C6_invalid_term_witness :
    calculate_monthly_payment 100 0 0 = none ∧
    (0 : ℝ) ≤ 0 ∧ (-5 : ℤ) < 0 ∧
    ∃ x, calculate_monthly_payment 100 0 (-5) = some x :=
  ⟨C6_invalid_term.1 100 0, le_refl 0, by norm_num,
    C6_invalid_term.2 100 0 (-5) (le_refl 0) (by norm_num)⟩

/-! ## Non-termination of the revolving daily-accrual loop (C4) -/

lemma innerDays_no_stop (pay d : ℚ) (hd : 0 ≤ d) (hp : 0 ≤ pay) :
    ∀ (k : ℕ) (rb mi : ℚ), pay < rb →
      innerDays pay d k rb mi =
        (rb * (1 + d) ^ k, mi + rb * ((1 + d) ^ k - 1), false) := by
  intro k
  induction k with
  | zero =>
    intro rb mi h
    simp [innerDays]
  | succ n ih =>
    intro rb mi h
    have hrb0 : 0 < rb := lt_of_le_of_lt hp h
    have h' : pay < rb + rb * d := by nlinarith
    simp only [innerDays]
    rw [if_neg (not_le.mpr h'), ih (rb + rb * d) (mi + rb * d) h']
    simp only [Prod.mk.injEq]
    refine ⟨by ring, by ring, trivial⟩

lemma outerMonths_nonterm :
    ∀ (fuel : ℕ) (rb total : ℚ), 1000 ≤ rb →
      outerMonths 15 (6 / 9125) fuel rb total = none := by
  intro fuel
  induction fuel with
  | zero =>
    intro rb total h
    simp only [outerMonths]
    rw [if_pos (by linarith : (0 : ℚ) < rb)]
  | succ n ih =>
    intro rb total h
    have hrb : (0 : ℚ) < rb := by linarith
    have hpay : (15 : ℚ) < rb := by linarith
    have hinner := innerDays_no_stop 15 (6 / 9125) (by norm_num) (by norm_num) 30 rb 0 hpay
    have hc1 : (1 : ℚ) + 30 * (6 / 9125) ≤ (1 + 6 / 9125) ^ 30 :=
      one_add_mul_le_pow (by norm_num : (-2 : ℚ) ≤ 6 / 9125) 30
    have hmul : rb * (1 + 30 * (6 / 9125)) ≤ rb * (1 + 6 / 9125) ^ 30 :=
      mul_le_mul_of_nonneg_left hc1 hrb.le
    have hnext : 1000 ≤ rb * (1 + 6 / 9125) ^ 30 - 15 := by nlinarith
    have hc0 : (0 : ℚ) < (1 + 6 / 9125 : ℚ) ^ 30 := by positivity
    have hne : rb * (1 + 6 / 9125) ^ 30 ≠ 0 := (mul_pos hrb hc0).ne'
    have hmin : min (15 : ℚ) (rb * (1 + 6 / 9125) ^ 30) = 15 :=
      min_eq_left (by linarith)
    have hclamp : ¬ rb * (1 + 6 / 9125) ^ 30 - 15 < 0 := by linarith
    simp only [outerMonths, hinner, if_pos hrb, if_neg hne, hmin, if_neg hclamp,
      Bool.false_eq_true, if_false]
    exact ih _ _ (by linarith)

/-- Claim C4, counterexample: at balance 1000, annual rate 24 percent and
monthly payment 15 (the inputs named by the claim), the daily-accrual
simulation neither returns a total-interest figure nor stops with an error:
for no number of loop iterations does it produce a result. -/
theorem C4_counterexample :
    ¬ ∃ (fuel : ℕ) (x : ℚ),
      calculate_revolving_borrowing_cost_daily 1000 (24 / 100) 15 fuel = some x := by
  rintro ⟨fuel, x, hx⟩
  have h : (24 / 100 : ℚ) / 365 = 6 / 9125 := by norm_num
  rw [calculate_revolving_borrowing_cost_daily, h,
    outerMonths_nonterm fuel 1000 0 (by norm_num)] at hx
  exact Option.noConfusion hx

/-- Claim C4 (amended): the source's `while remaining_balance > 0` loop has no
iteration cap and no `NonTerminatingPayment` error path; when the monthly
payment is at or below the periodic interest accrual — e.g. balance 1000,
rate 24 percent, payment 15 — the simulation runs forever: whatever fuel the
loop is given, it is still running when the fuel is exhausted. -/
theorem C4_no_cap (fuel : ℕ) :
    calculate_revolving_borrowing_cost_daily 1000 (24 / 100) 15 fuel = none := by
  have h : (24 / 100 : ℚ) / 365 = 6 / 9125 := by norm_num
  rw [calculate_revolving_borrowing_cost_daily, h]
  exact outerMonths_nonterm fuel 1000 0 (by norm_num)

/-! ## Timeline generator lemmas (C9, C10) -/

lemma timelineAux_length (r pay : ℚ) :
    ∀ (fuel m0 : ℕ) (rb : ℚ), (timelineAux r pay fuel m0 rb).length ≤ fuel := by
  intro fuel
  induction fuel with
  | zero => intro m0 rb; simp [timelineAux]
  | succ n ih =>
    intro m0 rb
    simp only [timelineAux]
    split
    · simp
    · simp only [List.length_cons]
      exact Nat.succ_le_succ (ih _ _)

lemma timelineAux_months (r pay : ℚ) :
    ∀ (fuel m0 : ℕ) (rb : ℚ),
      (timelineAux r pay fuel m0 rb).map Prod.fst =
        List.range' m0 (timelineAux r pay fuel m0 rb).length := by
  intro fuel
  induction fuel with
  | zero => intro m0 rb; simp [timelineAux]
  | succ n ih =>
    intro m0 rb
    simp only [timelineAux]
    split
    · simp
    · simp only [List.map_cons, List.length_cons, List.range'_succ]
      rw [ih]

lemma timelineAux_zero_stops (r pay : ℚ) :
    ∀ (fuel m0 : ℕ) (rb : ℚ), rb ≤ 0 → timelineAux r pay fuel m0 rb = [] := by
  intro fuel
  cases fuel <;> intro m0 rb h <;> simp [timelineAux, h]

lemma timelineAux_nonneg (r pay : ℚ) :
    ∀ (fuel m0 : ℕ) (rb : ℚ) (x : ℕ × ℚ),
      x ∈ timelineAux r pay fuel m0 rb → 0 ≤ x.2 := by
  intro fuel
  induction fuel with
  | zero => intro m0 rb x hx; simp [timelineAux] at hx
  | succ n ih =>
    intro m0 rb x hx
    simp only [timelineAux] at hx
    by_cases h : rb ≤ 0
    · rw [if_pos h] at hx; simp at hx
    · rw [if_neg h] at hx
      rcases List.mem_cons.mp hx with h1 | h2
      · subst h1
        dsimp only
        split
        · exact le_refl 0
        · linarith [not_lt.mp (by assumption : ¬ rb + rb * (r / 12) - pay < 0)]
      · exact ih _ _ _ h2

lemma timelineAux_dropLast_ne (r pay : ℚ) :
    ∀ (fuel m0 : ℕ) (rb : ℚ) (x : ℕ × ℚ),
      x ∈ (timelineAux r pay fuel m0 rb).dropLast → x.2 ≠ 0 := by
  intro fuel
  induction fuel with
  | zero => intro m0 rb x hx; simp [timelineAux] at hx
  | succ n ih =>
    intro m0 rb x hx
    simp only [timelineAux] at hx
    by_cases h : rb ≤ 0
    · rw [if_pos h] at hx; simp at hx
    · rw [if_neg h] at hx
      cases hR : timelineAux r pay n (m0 + 1)
          (if rb + rb * (r / 12) - pay < 0 then 0 else rb + rb * (r / 12) - pay) with
      | nil => rw [hR] at hx; simp at hx
      | cons y ys =>
        rw [hR, List.dropLast_cons₂] at hx
        rcases List.mem_cons.mp hx with h1 | h2
        · subst h1
          dsimp only
          intro h0
          have : timelineAux r pay n (m0 + 1)
              (if rb + rb * (r / 12) - pay < 0 then 0 else rb + rb * (r / 12) - pay) = [] :=
            timelineAux_zero_stops r pay n (m0 + 1) _ (le_of_eq h0)
          rw [hR] at this
          exact List.noConfusion this
        · exact ih _ _ _ (by rw [hR]; exact h2)

lemma timelineAux_chain (r pay : ℚ) :
    ∀ (fuel m0 : ℕ) (rb : ℚ),
      (∀ x ∈ (timelineAux r pay fuel m0 rb).head?, x.2 =
        if rb + rb * (r / 12) - pay < 0 then 0 else rb + rb * (r / 12) - pay) ∧
      List.Chain' (fun a b : ℕ × ℚ => b.2 =
        if a.2 + a.2 * (r / 12) - pay < 0 then 0 else a.2 + a.2 * (r / 12) - pay)
        (timelineAux r pay fuel m0 rb) := by
  intro fuel
  induction fuel with
  | zero =>
    intro m0 rb
    constructor
    · intro x hx; simp [timelineAux] at hx
    · simp [timelineAux]
  | succ n ih =>
    intro m0 rb
    by_cases h : rb ≤ 0
    · constructor
      · intro x hx; simp [timelineAux, if_pos h] at hx
      · simp [timelineAux, if_pos h]
    · have hrec := ih (m0 + 1) (if rb + rb * (r / 12) - pay < 0 then 0
        else rb + rb * (r / 12) - pay)
      constructor
      · intro x hx
        simp only [timelineAux, if_neg h, List.head?_cons, Option.mem_def,
          Option.some.injEq] at hx
        rw [← hx]
      · simp only [timelineAux, if_neg h]
        rw [List.chain'_cons']
        refine ⟨fun y hy => ?_, hrec.2⟩
        have := hrec.1 y hy
        simpa using this

lemma timelineAux_lower (r pay : ℚ) (hr : 0 < r) :
    ∀ (fuel m0 : ℕ) (rb : ℚ), 0 < rb →
      ∀ x ∈ timelineAux r pay fuel m0 rb,
        m0 ≤ x.1 ∧ rb - ((x.1 + 1 - m0 : ℕ) : ℚ) * pay < x.2 := by
  intro fuel
  induction fuel with
  | zero => intro m0 rb hrb x hx; simp [timelineAux] at hx
  | succ n ih =>
    intro m0 rb hrb x hx
    simp only [timelineAux, if_neg (not_le.mpr hrb)] at hx
    have hacc : 0 < rb * (r / 12) :=
      mul_pos hrb (div_pos hr (by norm_num))
    have hstep : rb - pay <
        (if rb + rb * (r / 12) - pay < 0 then 0 else rb + rb * (r / 12) - pay) := by
      by_cases hcl : rb + rb * (r / 12) - pay < 0
      · rw [if_pos hcl]; linarith
      · rw [if_neg hcl]; linarith
    rcases List.mem_cons.mp hx with h1 | h2
    · subst h1
      refine ⟨le_refl m0, ?_⟩
      have hone : (m0 + 1 - m0 : ℕ) = 1 := by omega
      dsimp only
      rw [hone]
      push_cast
      linarith
    · by_cases hpos : 0 < (if rb + rb * (r / 12) - pay < 0 then 0
        else rb + rb * (r / 12) - pay)
      · have hih := ih (m0 + 1) _ hpos x h2
        have hm : m0 + 1 ≤ x.1 := hih.1
        refine ⟨by omega, ?_⟩
        have hc1 : (x.1 + 1 - m0 : ℕ) = (x.1 - m0 : ℕ) + 1 := by omega
        have hc2 : (x.1 + 1 - (m0 + 1) : ℕ) = (x.1 - m0 : ℕ) := by omega
        rw [hc2] at hih
        rw [hc1]
        push_cast
        have := hih.2
        nlinarith [hstep]
      · rw [timelineAux_zero_stops r pay n (m0 + 1) _ (not_lt.mp hpos)] at h2
        simp at h2

/-- Claim C9: the repayment timeline is a list of at most `max_months` pairs;
the month numbers are consecutive from 1; the first balance is the input
balance after one accrue-pay-clamp step and each successive balance is the
previous one after the same step; every listed balance is nonnegative; and a
zero balance can appear only as the final pair. -/
theorem C9_timeline_invariants (b r pay : ℚ) (M : ℕ) (_hr : 0 ≤ r) :
    (generate_repayment_timeline b r pay M).length ≤ M ∧
    (generate_repayment_timeline b r pay M).map Prod.fst =
      List.range' 1 (generate_repayment_timeline b r pay M).length ∧
    (∀ x ∈ generate_repayment_timeline b r pay M, 0 ≤ x.2) ∧
    (∀ x ∈ (generate_repayment_timeline b r pay M).head?, x.2 =
      if b + b * (r / 12) - pay < 0 then 0 else b + b * (r / 12) - pay) ∧
    List.Chain' (fun a c : ℕ × ℚ => c.2 =
      if a.2 + a.2 * (r / 12) - pay < 0 then 0 else a.2 + a.2 * (r / 12) - pay)
      (generate_repayment_timeline b r pay M) ∧
    (∀ x ∈ (generate_repayment_timeline b r pay M).dropLast, x.2 ≠ 0) :=
  ⟨timelineAux_length r pay M 1 b, timelineAux_months r pay M 1 b,
    fun x hx => timelineAux_nonneg r pay M 1 b x hx,
    (timelineAux_chain r pay M 1 b).1, (timelineAux_chain r pay M 1 b).2,
    fun x hx => timelineAux_dropLast_ne r pay M 1 b x hx⟩

/-- Witness for C9 at balance 100, rate 12 percent, payment 60, horizon 12
(the timeline there is `[(1, 41), (2, 0)]`). -/
theorem C9_timeline_invariants_witness :
    (0 : ℚ) ≤ 12 / 100 ∧
    ((generate_repayment_timeline 100 (12 / 100) 60 12).length ≤ 12 ∧
    (generate_repayment_timeline 100 (12 / 100) 60 12).map Prod.fst =
      List.range' 1 (generate_repayment_timeline 100 (12 / 100) 60 12).length ∧
    (∀ x ∈ generate_repayment_timeline 100 (12 / 100) 60 12, 0 ≤ x.2) ∧
    (∀ x ∈ (generate_repayment_timeline 100 (12 / 100) 60 12).head?, x.2 =
      if 100 + 100 * ((12 / 100 : ℚ) / 12) - 60 < 0 then 0
      else 100 + 100 * ((12 / 100 : ℚ) / 12) - 60) ∧
    List.Chain' (fun a c : ℕ × ℚ => c.2 =
      if a.2 + a.2 * ((12 / 100 : ℚ) / 12) - 60 < 0 then 0
      else a.2 + a.2 * ((12 / 100 : ℚ) / 12) - 60)
      (generate_repayment_timeline 100 (12 / 100) 60 12) ∧
    (∀ x ∈ (generate_repayment_timeline 100 (12 / 100) 60 12).dropLast, x.2 ≠ 0)) :=
  ⟨by norm_num, C9_timeline_invariants 100 (12 / 100) 60 12 (by norm_num)⟩

/-- Claim C10: the revolving remaining-term estimate is the truncation of
`balance / monthly_payment` when the payment is positive and 0 when the
payment is 0; and since it ignores interest, whenever the (monthly-accrual)
repayment simulation reaches a zero balance at some month `k` under a
positive rate, the estimate is strictly less than `k` — it understates the
payoff time. -/
theorem C10_revolving_term_estimate (b pay : ℚ) :
    (0 < pay → revolving_remaining_term b pay = truncToInt (b / pay)) ∧
    revolving_remaining_term b 0 = 0 ∧
    (∀ (r : ℚ) (M k : ℕ), 0 < r → 0 < b → 0 < pay →
      (k, (0 : ℚ)) ∈ generate_repayment_timeline b r pay M →
      revolving_remaining_term b pay < (k : ℤ)) := by
  refine ⟨fun hp => if_pos hp, if_neg (lt_irrefl 0), ?_⟩
  intro r M k hr hb hp hmem
  have h := (timelineAux_lower r pay hr M 1 b hb (k, (0 : ℚ)) hmem).2
  dsimp only at h
  have hk1 : (k + 1 - 1 : ℕ) = k := by omega
  rw [hk1] at h
  have hdiv : b / pay < (k : ℚ) := by
    rw [div_lt_iff₀ hp]
    linarith
  have hnn : (0 : ℚ) ≤ b / pay := le_of_lt (div_pos hb hp)
  rw [revolving_remaining_term, if_pos hp, truncToInt, if_pos hnn]
  rw [Int.floor_lt]
  exact_mod_cast hdiv

/-- Witness for C10 at balance 100, payment 60, rate 12 percent, horizon 12:
the simulation pays off at month 2 while the estimate is 1. -/
theorem C10_revolving_term_estimate_witness :
    (0 : ℚ) < 12 / 100 ∧ (0 : ℚ) < 100 ∧ (0 : ℚ) < 60 ∧
    ((2 : ℕ), (0 : ℚ)) ∈ generate_repayment_timeline 100 (12 / 100) 60 12 ∧
    revolving_remaining_term 100 60 < ((2 : ℕ) : ℤ) := by
  have htl : generate_repayment_timeline 100 (12 / 100) 60 12 = [(1, 41), (2, 0)] := by
    norm_num [generate_repayment_timeline, timelineAux]
  refine ⟨by norm_num, by norm_num, by norm_num, ?_, ?_⟩
  · rw [htl]; simp
  · exact (C10_revolving_term_estimate 100 60).2.2 (12 / 100) 12 2
      (by norm_num) (by norm_num) (by norm_num) (by rw [htl]; simp)

/-! ## Weighted average (C8) and aggregation (C2, C3) -/

lemma wavg_foldl (debts : List (ℚ × ℚ)) :
    ∀ acc : ℚ × ℚ,
      debts.foldl (fun acc d => (acc.1 + d.1, acc.2 + d.1 * d.2)) acc =
        (acc.1 + (debts.map Prod.fst).sum,
         acc.2 + (debts.map fun d => d.1 * d.2).sum) := by
  induction debts with
  | nil => intro acc; simp
  | cons d rest ih =>
    intro acc
    simp only [List.foldl_cons, List.map_cons, List.sum_cons]
    rw [ih]
    simp only [Prod.mk.injEq]
    constructor <;> ring

/-- Claim C8: the weighted-average rate is
`(Σ balance_i * rate_i + mortgage_balance * mortgage_rate) /
(Σ balance_i + mortgage_balance)`, expressed as a percentage and rounded to
two decimals, and it is 0 (not a division error) when the total balance is
zero. -/
theorem C8_weighted_average (debts : List (ℚ × ℚ)) (mb mr : ℚ) :
    calculate_weighted_average_interest debts mb mr =
      if mb + (debts.map Prod.fst).sum = 0 then 0
      else pyRound2 ((mb * mr + (debts.map fun d => d.1 * d.2).sum) /
        (mb + (debts.map Prod.fst).sum) * 100) := by
  simp only [calculate_weighted_average_interest, wavg_foldl debts (mb, mb * mr)]

lemma foldl_add_entry (f : DebtEntry → ℝ) (l : List DebtEntry) :
    ∀ a : ℝ, l.foldl (fun acc d => acc + f d) a = a + (l.map f).sum := by
  induction l with
  | nil => intro a; simp
  | cons d rest ih =>
    intro a
    simp only [List.foldl_cons, List.map_cons, List.sum_cons]
    rw [ih]
    ring

/-- Claim C2, counterexample: a reachable one-debt portfolio (fixed debt:
balance 12000, rate 0, 12-month term, 0 months elapsed; mortgage: balance
120000, rate 0, 360-month amortization, 300 months elapsed) on which the
comparison's payoff horizon is 360 — the full mortgage amortization — while
the spec's description (max of the mortgage's remaining term 60 and the
debt's remaining term 12) gives 60. -/
theorem C2_counterexample :
    mkFixedEntry "D" 12000 0 12 0 =
      some (DebtEntry.fixed "D" 12000 0 12 1000 0 12000) ∧
    mkMortgage 120000 0 360 300 =
      some { payment := 1000 / 3, remainingBalance := 20000, remainingInterest := 0,
             remainingTerm := 60, amortization := 360 } ∧
    current_horizon
      { payment := 1000 / 3, remainingBalance := 20000, remainingInterest := 0,
        remainingTerm := 60, amortization := 360 }
      [DebtEntry.fixed "D" 12000 0 12 1000 0 12000] = 360 ∧
    spec_current_horizon
      { payment := 1000 / 3, remainingBalance := 20000, remainingInterest := 0,
        remainingTerm := 60, amortization := 360 }
      [DebtEntry.fixed "D" 12000 0 12 1000 0 12000] = 60 ∧
    current_horizon
        { payment := 1000 / 3, remainingBalance := 20000, remainingInterest := 0,
          remainingTerm := 60, amortization := 360 }
        [DebtEntry.fixed "D" 12000 0 12 1000 0 12000] ≠
      spec_current_horizon
        { payment := 1000 / 3, remainingBalance := 20000, remainingInterest := 0,
          remainingTerm := 60, amortization := 360 }
        [DebtEntry.fixed "D" 12000 0 12 1000 0 12000] := by
  refine ⟨?_, ?_, ?_, ?_, ?_⟩
  · norm_num [mkFixedEntry, calculate_remaining_balance, calculate_monthly_payment,
      calculate_total_interest, Option.bind]
  · norm_num [mkMortgage, calculate_remaining_balance, calculate_monthly_payment,
      calculate_total_interest, Option.bind]
  · norm_num [current_horizon, pyMax, DebtEntry.remaining_term]
  · norm_num [spec_current_horizon, pyMax, DebtEntry.remaining_term]
  · norm_num [current_horizon, spec_current_horizon, pyMax, DebtEntry.remaining_term]

/-- Claim C2 (amended): for every portfolio with at least one debt and a
mortgage, the comparison's current-scenario totals are: total interest =
mortgage remaining interest plus the sum over the debts of the value of
their `total_interest` key with default 0 — so fixed debts contribute 0
(their figure is stored under `remaining_interest`, which line 201 does not
read) and revolving debts contribute their total interest; total monthly
payment = mortgage payment plus every debt's monthly payment; payoff
horizon = max of the mortgage's full amortization term (not its remaining
term) and every debt's remaining term. -/
theorem C2_current_totals (m : MortgageData) (debts : List DebtEntry)
    (_hne : debts ≠ []) :
    current_interest m debts =
      m.remainingInterest + (debts.map DebtEntry.getTotalInterestD).sum ∧
    (∀ nm b r rt mp ri rb,
      DebtEntry.getTotalInterestD (.fixed nm b r rt mp ri rb) = 0) ∧
    (∀ nm b r mp ti rb rt,
      DebtEntry.getTotalInterestD (.revolving nm b r mp ti rb rt) = ti) ∧
    current_payment m debts =
      m.payment + (debts.map DebtEntry.monthly_payment).sum ∧
    current_horizon m debts =
      max (m.amortization : ℤ) (pyMax (debts.map DebtEntry.remaining_term)) := by
  refine ⟨?_, fun _ _ _ _ _ _ _ => rfl, fun _ _ _ _ _ _ _ => rfl, ?_, rfl⟩
  · rw [current_interest, foldl_add_entry]
    ring
  · rw [current_payment, foldl_add_entry]
    ring

/-- Witness for the C2 theorem on the counterexample's one-debt portfolio. -/
theorem C2_current_totals_witness :
    ([DebtEntry.fixed "D" 12000 0 12 1000 0 12000] ≠ ([] : List DebtEntry)) ∧
    (current_interest
        { payment := 1000 / 3, remainingBalance := 20000, remainingInterest := 0,
          remainingTerm := 60, amortization := 360 }
        [DebtEntry.fixed "D" 12000 0 12 1000 0 12000] =
      MortgageData.remainingInterest
        { payment := 1000 / 3, remainingBalance := 20000, remainingInterest := 0,
          remainingTerm := 60, amortization := 360 } +
        (([DebtEntry.fixed "D" 12000 0 12 1000 0 12000].map
          DebtEntry.getTotalInterestD).sum) ∧
    (∀ nm b r rt mp ri rb,
      DebtEntry.getTotalInterestD (.fixed nm b r rt mp ri rb) = 0) ∧
    (∀ nm b r mp ti rb rt,
      DebtEntry.getTotalInterestD (.revolving nm b r mp ti rb rt) = ti) ∧
    current_payment
        { payment := 1000 / 3, remainingBalance := 20000, remainingInterest := 0,
          remainingTerm := 60, amortization := 360 }
        [DebtEntry.fixed "D" 12000 0 12 1000 0 12000] =
      MortgageData.payment
        { payment := 1000 / 3, remainingBalance := 20000, remainingInterest := 0,
          remainingTerm := 60, amortization := 360 } +
        (([DebtEntry.fixed "D" 12000 0 12 1000 0 12000].map
          DebtEntry.monthly_payment).sum) ∧
    current_horizon
        { payment := 1000 / 3, remainingBalance := 20000, remainingInterest := 0,
          remainingTerm := 60, amortization := 360 }
        [DebtEntry.fixed "D" 12000 0 12 1000 0 12000] =
      max ((360 : ℕ) : ℤ)
        (pyMax ([DebtEntry.fixed "D" 12000 0 12 1000 0 12000].map
          DebtEntry.remaining_term))) :=
  ⟨by simp,
    C2_current_totals
      { payment := 1000 / 3, remainingBalance := 20000, remainingInterest := 0,
        remainingTerm := 60, amortization := 360 }
      [DebtEntry.fixed "D" 12000 0 12 1000 0 12000] (by simp)⟩

/-- Claim C3: the consolidated principal is the mortgage's remaining balance
plus the remaining balances of the selected debts plus the fees; the
consolidated payment and total interest are the fixed-loan calculator applied
to that principal with the new rate and term; and the net-savings cell is the
current-scenario total interest minus the consolidated total interest,
reported as computed (also when zero or negative). -/
theorem C3_consolidation (m : MortgageData) (debts : List DebtEntry)
    (selected : List String) (fees new_rate : ℝ) (new_amortization : ℕ)
    (hr : 0 ≤ new_rate) (ht : 1 ≤ new_amortization)
    (_hsel : (debts.filter fun d => d.name ∈ selected) ≠ []) :
    new_balance m debts selected fees =
      m.remainingBalance +
        ((debts.filter fun d => d.name ∈ selected).map
          DebtEntry.remaining_balance).sum + fees ∧
    ∃ pay p ti,
      calculate_monthly_payment (new_balance m debts selected fees) new_rate
        (new_amortization : ℤ) = some (pay, p) ∧
      calculate_total_interest (new_balance m debts selected fees) new_rate
        new_amortization = some ti ∧
      ti = pay * (new_amortization : ℝ) - new_balance m debts selected fees ∧
      comparison_data m debts selected fees new_rate new_amortization =
        some { currentInterest := current_interest m debts,
               currentPayment := current_payment m debts,
               currentHorizon := current_horizon m debts,
               consolidatedInterest := ti,
               consolidatedPayment := pay,
               consolidatedHorizon := (new_amortization : ℤ),
               netSavings := current_interest m debts - ti } := by
  have htn : new_amortization ≠ 0 := by omega
  refine ⟨rfl, ?_⟩
  have hsome : ∃ pp : ℝ × ℝ,
      calculate_monthly_payment (new_balance m debts selected fees) new_rate
        (new_amortization : ℤ) = some pp := by
    rcases hr.eq_or_lt with h0 | hpos
    · subst h0
      exact ⟨_, calcMP_zero_rate _ _ (by exact_mod_cast htn)⟩
    · exact ⟨_, calcMP_pos_rate _ hpos (by exact_mod_cast ht)⟩
  obtain ⟨⟨pay, p⟩, hmp⟩ := hsome
  refine ⟨pay, p,
    pay * (new_amortization : ℝ) - new_balance m debts selected fees, hmp, ?_, rfl, ?_⟩
  · simp only [calculate_total_interest, if_neg htn, hmp, Option.map_some']
  · simp only [comparison_data, hmp, calculate_total_interest, if_neg htn,
      Option.some_bind, Option.map_some']

/-- Witness for the C3 theorem on the counterexample portfolio with plan
rate 0, term 120 months, fees 500, selecting the debt named D. -/
theorem C3_consolidation_witness :
    ((0 : ℝ) ≤ 0 ∧ 1 ≤ 120 ∧
      (([DebtEntry.fixed "D" 12000 0 12 1000 0 12000].filter
        fun d => d.name ∈ ["D"]) ≠ [])) ∧
    (new_balance
        { payment := 1000 / 3, remainingBalance := 20000, remainingInterest := 0,
          remainingTerm := 60, amortization := 360 }
        [DebtEntry.fixed "D" 12000 0 12 1000 0 12000] ["D"] 500 =
      MortgageData.remainingBalance
        { payment := 1000 / 3, remainingBalance := 20000, remainingInterest := 0,
          remainingTerm := 60, amortization := 360 } +
        (([DebtEntry.fixed "D" 12000 0 12 1000 0 12000].filter
          fun d => d.name ∈ ["D"]).map DebtEntry.remaining_balance).sum + 500 ∧
    ∃ pay p ti,
      calculate_monthly_payment
        (new_balance
          { payment := 1000 / 3, remainingBalance := 20000, remainingInterest := 0,
            remainingTerm := 60, amortization := 360 }
          [DebtEntry.fixed "D" 12000 0 12 1000 0 12000] ["D"] 500) 0
        ((120 : ℕ) : ℤ) = some (pay, p) ∧
      calculate_total_interest
        (new_balance
          { payment := 1000 / 3, remainingBalance := 20000, remainingInterest := 0,
            remainingTerm := 60, amortization := 360 }
          [DebtEntry.fixed "D" 12000 0 12 1000 0 12000] ["D"] 500) 0 120 = some ti ∧
      ti = pay * ((120 : ℕ) : ℝ) -
        new_balance
          { payment := 1000 / 3, remainingBalance := 20000, remainingInterest := 0,
            remainingTerm := 60, amortization := 360 }
          [DebtEntry.fixed "D" 12000 0 12 1000 0 12000] ["D"] 500 ∧
      comparison_data
          { payment := 1000 / 3, remainingBalance := 20000, remainingInterest := 0,
            remainingTerm := 60, amortization := 360 }
          [DebtEntry.fixed "D" 12000 0 12 1000 0 12000] ["D"] 500 0 120 =
        some { currentInterest := current_interest
                 { payment := 1000 / 3, remainingBalance := 20000,
                   remainingInterest := 0, remainingTerm := 60, amortization := 360 }
                 [DebtEntry.fixed "D" 12000 0 12 1000 0 12000],
               currentPayment := current_payment
                 { payment := 1000 / 3, remainingBalance := 20000,
                   remainingInterest := 0, remainingTerm := 60, amortization := 360 }
                 [DebtEntry.fixed "D" 12000 0 12 1000 0 12000],
               currentHorizon := current_horizon
                 { payment := 1000 / 3, remainingBalance := 20000,
                   remainingInterest := 0, remainingTerm := 60, amortization := 360 }
                 [DebtEntry.fixed "D" 12000 0 12 1000 0 12000],
               consolidatedInterest := ti,
               consolidatedPayment := pay,
               consolidatedHorizon := ((120 : ℕ) : ℤ),
               netSavings := current_interest
                 { payment := 1000 / 3, remainingBalance := 20000,
                   remainingInterest := 0, remainingTerm := 60, amortization := 360 }
                 [DebtEntry.fixed "D" 12000 0 12 1000 0 12000] - ti }) := by
  have hfil : (([DebtEntry.fixed "D" 12000 0 12 1000 0 12000].filter
      fun d => d.name ∈ ["D"]) : List DebtEntry) ≠ [] := by
    simp [List.filter, DebtEntry.name]
  exact ⟨⟨le_refl 0, by norm_num, hfil⟩,
    C3_consolidation
      { payment := 1000 / 3, remainingBalance := 20000, remainingInterest := 0,
        remainingTerm := 60, amortization := 360 }
      [DebtEntry.fixed "D" 12000 0 12 1000 0 12000] ["D"] 500 0 120
      (le_refl 0) (by norm_num) hfil⟩

end DebtCon
